import Mathlib

/-!
Shallow embedding of the High School Management System API
(src/app.py, src/database.py): a FastAPI application over a relational
store with tables for activities, participants and users, JWT-based
authentication and role-gated admin operations.

The store is modelled as an explicit state (lists of rows plus
auto-increment counters); each endpoint handler becomes a pure function
from state and request data to a result paired with the post-state.
HTTP errors (`HTTPException(status_code, detail)`) become an explicit
error value carrying status and detail.
-/

namespace School

/-- Model of `fastapi.HTTPException`: status code and detail message. -/
structure HTTPError where
  status : Nat
  detail : String
deriving Repr, DecidableEq

/-- Row of the `activities` table (database.py, class Activity):
auto id, unique name, description, schedule, max_participants. -/
structure Activity where
  id : Nat
  name : String
  description : String
  schedule : String
  max_participants : Int
deriving Repr, DecidableEq

/-- Row of the `participants` table (database.py, class Participant):
auto id, email, foreign key to the owning activity. -/
structure Participant where
  id : Nat
  email : String
  activity_id : Nat
deriving Repr, DecidableEq

/-- Modelled from the spec: the role enumeration (STUDENT, ACTIVITY_ADMIN,
ADMIN). `UserRole` is imported by app.py from the database module but is
absent from database.py, so it is reconstructed from the spec's data model. -/
inductive UserRole where
  | STUDENT
  | ACTIVITY_ADMIN
  | ADMIN
deriving Repr, DecidableEq

/-- Modelled from the spec: the string value of a role member, as used in
`role.value` when issuing a token and `UserRole(role)` when parsing one. -/
def UserRole.value : UserRole → String
  | .STUDENT => "student"
  | .ACTIVITY_ADMIN => "activity_admin"
  | .ADMIN => "admin"

/-- Model of Python `UserRole(r)` on a string: the member whose value is `r`,
if any (otherwise the constructor raises ValueError). -/
def parseRole (r : String) : Option UserRole :=
  if r = UserRole.STUDENT.value then some .STUDENT
  else if r = UserRole.ACTIVITY_ADMIN.value then some .ACTIVITY_ADMIN
  else if r = UserRole.ADMIN.value then some .ADMIN
  else none

/-- Modelled from the spec: row of the users table (auto id, unique
username, unique email, hashed password, role). The `User` model is
imported by app.py from the database module but is absent from
database.py. The creation timestamp is omitted: no claim concerns it. -/
structure User where
  id : Nat
  username : String
  email : String
  hashed_password : String
  role : UserRole
deriving Repr, DecidableEq

/-- The relational store: the three tables plus auto-increment counters
for the primary keys. -/
structure DBState where
  activities : List Activity
  participants : List Participant
  users : List User
  next_activity_id : Nat
  next_participant_id : Nat
  next_user_id : Nat
deriving Repr, DecidableEq

/-- `select(Activity).where(Activity.name == name)` followed by
`scalar_one_or_none()`: the first activity row with the given name. -/
def findActivity (s : DBState) (name : String) : Option Activity :=
  s.activities.find? (fun a => a.name == name)

/-- `select(Participant).where(activity_id == aid, email == e)` followed by
`scalar_one_or_none()`: the first matching enrollment row. -/
def findParticipant (s : DBState) (aid : Nat) (e : String) : Option Participant :=
  s.participants.find? (fun p => p.activity_id == aid && p.email == e)

/-- The `activity.participants` relationship: all participant rows whose
`activity_id` is the given activity id. -/
def activityParticipants (s : DBState) (aid : Nat) : List Participant :=
  s.participants.filter (fun p => p.activity_id == aid)

/-- Number of participants of the activity with the given id
(`len(activity.participants)`). -/
def countFor (ps : List Participant) (aid : Nat) : Nat :=
  (ps.filter (fun p => p.activity_id == aid)).length

/-- `POST /activities/{activity_name}/signup` (app.py, signup_for_activity):
look up the activity by name (404 if absent), reject a duplicate
(activity, email) enrollment (400 "Student is already signed up"), reject
when the activity is full (400 "Activity is full"), otherwise insert the
participant row and commit. The second component is the post-state. -/
def signup_for_activity (s : DBState) (activity_name email : String) :
    Except HTTPError String × DBState :=
  match findActivity s activity_name with
  | none => (.error ⟨404, "Activity not found"⟩, s)
  | some activity =>
    match findParticipant s activity.id email with
    | some _ => (.error ⟨400, "Student is already signed up"⟩, s)
    | none =>
      let participant_count := countFor s.participants activity.id
      if (participant_count : Int) ≥ activity.max_participants then
        (.error ⟨400, "Activity is full"⟩, s)
      else
        (.ok ("Signed up " ++ email ++ " for " ++ activity_name),
         { s with
            participants :=
              s.participants ++ [⟨s.next_participant_id, email, activity.id⟩],
            next_participant_id := s.next_participant_id + 1 })

/-- `DELETE /activities/{activity_name}/unregister` (app.py,
unregister_from_activity): look up the activity by name (404 if absent),
look up the participant row (400 "Student is not signed up for this
activity" if absent), otherwise delete that row and commit. -/
def unregister_from_activity (s : DBState) (activity_name email : String) :
    Except HTTPError String × DBState :=
  match findActivity s activity_name with
  | none => (.error ⟨404, "Activity not found"⟩, s)
  | some activity =>
    match findParticipant s activity.id email with
    | none => (.error ⟨400, "Student is not signed up for this activity"⟩, s)
    | some participant =>
      (.ok ("Unregistered " ++ email ++ " from " ++ activity_name),
       { s with
          participants := s.participants.filter (fun p => p.id != participant.id) })

/-- Request body of `POST /admin/activities` (app.py, class ActivityCreate). -/
structure ActivityCreate where
  name : String
  description : String
  schedule : String
  max_participants : Int
deriving Repr, DecidableEq

/-- Request body of `PUT /admin/activities/{name}` (app.py, class
ActivityUpdate): every field optional. -/
structure ActivityUpdate where
  description : Option String
  schedule : Option String
  max_participants : Option Int
deriving Repr, DecidableEq

/-- `POST /admin/activities` (app.py, create_activity), after the role
gate: reject a duplicate name (400 "Activity with this name already
exists"), otherwise insert the activity row and commit, returning the
created record. -/
def create_activity (s : DBState) (activity : ActivityCreate) :
    Except HTTPError Activity × DBState :=
  match findActivity s activity.name with
  | some _ => (.error ⟨400, "Activity with this name already exists"⟩, s)
  | none =>
    let new_activity : Activity :=
      ⟨s.next_activity_id, activity.name, activity.description,
        activity.schedule, activity.max_participants⟩
    (.ok new_activity,
     { s with
        activities := s.activities ++ [new_activity],
        next_activity_id := s.next_activity_id + 1 })

/-- The field-by-field mutation performed by update_activity: each provided
field overwrites the row's field; absent fields leave it unchanged. -/
def applyUpdate (a : Activity) (u : ActivityUpdate) : Activity :=
  let a1 := match u.description with
    | some d => { a with description := d }
    | none => a
  let a2 := match u.schedule with
    | some sc => { a1 with schedule := sc }
    | none => a1
  match u.max_participants with
  | some m => { a2 with max_participants := m }
  | none => a2

/-- `PUT /admin/activities/{activity_name}` (app.py, update_activity), after
the role gate: look up the activity by name (404 if absent), overwrite the
provided fields on that row, commit, and return the updated record. The row
is identified by its primary key. -/
def update_activity (s : DBState) (activity_name : String) (u : ActivityUpdate) :
    Except HTTPError Activity × DBState :=
  match findActivity s activity_name with
  | none => (.error ⟨404, "Activity not found"⟩, s)
  | some activity =>
    let updated := applyUpdate activity u
    (.ok updated,
     { s with
        activities := s.activities.map (fun a => if a.id == activity.id then updated else a) })

/-- `DELETE /admin/activities/{activity_name}` (app.py, delete_activity),
after the role gate: look up the activity by name (404 if absent), delete
the row; the `cascade="all, delete-orphan"` relationship also deletes every
participant row of that activity. -/
def delete_activity (s : DBState) (activity_name : String) :
    Except HTTPError String × DBState :=
  match findActivity s activity_name with
  | none => (.error ⟨404, "Activity not found"⟩, s)
  | some activity =>
    (.ok ("Activity '" ++ activity_name ++ "' deleted successfully"),
     { s with
        activities := s.activities.filter (fun a => a.id != activity.id),
        participants := s.participants.filter (fun p => p.activity_id != activity.id) })

/-- Request body of `POST /auth/register` (app.py, class UserRegister);
the role defaults to STUDENT in the source. -/
structure UserRegister where
  username : String
  email : String
  password : String
  role : UserRole
deriving Repr, DecidableEq

/-- `POST /auth/register` (app.py, register): reject a duplicate username
(400 "Username already registered"), then a duplicate email (400 "Email
already registered"), otherwise insert the user with the hashed password
and commit. The hash function (passlib bcrypt) is passed in abstractly. -/
def register (hash_fn : String → String) (s : DBState) (d : UserRegister) :
    Except HTTPError User × DBState :=
  if (s.users.find? (fun u => u.username == d.username)).isSome then
    (.error ⟨400, "Username already registered"⟩, s)
  else if (s.users.find? (fun u => u.email == d.email)).isSome then
    (.error ⟨400, "Email already registered"⟩, s)
  else
    let new_user : User :=
      ⟨s.next_user_id, d.username, d.email, hash_fn d.password, d.role⟩
    (.ok new_user,
     { s with
        users := s.users ++ [new_user],
        next_user_id := s.next_user_id + 1 })

/-- The shipped fallback secret: the second argument of `os.getenv` at
app.py line 27. -/
def SECRET_KEY_default : String := "your-secret-key-change-in-production"

/-- `SECRET_KEY = os.getenv("SECRET_KEY", "your-secret-key-change-in-production")`:
the environment variable when set, otherwise the shipped default. -/
def SECRET_KEY (env : Option String) : String :=
  env.getD SECRET_KEY_default

/-- `ACCESS_TOKEN_EXPIRE_MINUTES = 30` (app.py line 29), used by login and
refresh when issuing tokens. -/
def ACCESS_TOKEN_EXPIRE_MINUTES : Int := 30

/-- The JWT claim set the application encodes: `sub` (username), `role`
(role value string) and `exp` (expiry timestamp, seconds). -/
structure TokenPayload where
  sub : Option String
  role : Option String
  exp : Int
deriving Repr, DecidableEq

/-- A signed token: the payload and the HS256 signature over it. The MAC
itself (jose/HS256) is an external collaborator, passed in abstractly as a
keyed function. -/
structure JWT where
  payload : TokenPayload
  sig : String
deriving Repr, DecidableEq

/-- `create_access_token(data, expires_delta)` (app.py): the expiry is
`now + expires_delta` when `expires_delta` is truthy — a `timedelta(0)` is
falsy in Python, so both `None` and a zero delta fall to the default
`now + timedelta(minutes=15)`. The payload is signed with the configured
secret key. Deltas and timestamps are in seconds. -/
def create_access_token (mac : String → TokenPayload → String) (env : Option String)
    (now : Int) (sub role : String) (expires_delta : Option Int) : JWT :=
  let expire : Int :=
    match expires_delta with
    | some d => if d = 0 then now + 15 * 60 else now + d
    | none => now + 15 * 60
  let payload : TokenPayload := ⟨some sub, some role, expire⟩
  ⟨payload, mac (SECRET_KEY env) payload⟩

/-- Model of `jwt.decode(token, SECRET_KEY, algorithms=[ALGORITHM])`:
succeeds with the payload when the signature verifies under the configured
key and the expiry has not passed (jose rejects when `exp < now`), and
raises JWTError (here: `none`) otherwise. -/
def jwt_decode (mac : String → TokenPayload → String) (env : Option String)
    (now : Int) (t : JWT) : Option TokenPayload :=
  if t.sig = mac (SECRET_KEY env) t.payload ∧ now ≤ t.payload.exp then
    some t.payload
  else
    none

/-- The outcome of a handler in which an exception other than HTTPException
can propagate: `valueError` models an uncaught Python ValueError. -/
inductive AuthResult where
  | ok (u : User)
  | httpError (e : HTTPError)
  | valueError
deriving Repr, DecidableEq

/-- The 401 raised throughout `get_current_user`. -/
def credentials_exception : HTTPError :=
  ⟨401, "Could not validate credentials"⟩

/-- `get_current_user` (app.py): decode the token (401 on JWTError), 401
when the `sub` claim is missing, parse the role via `UserRole(role) if role
else None` (an unknown non-empty role string raises ValueError, which the
handler does not catch), then load the user by username (401 when absent). -/
def get_current_user (mac : String → TokenPayload → String) (env : Option String)
    (now : Int) (s : DBState) (t : JWT) : AuthResult :=
  match jwt_decode mac env now t with
  | none => .httpError credentials_exception
  | some payload =>
    match payload.sub with
    | none => .httpError credentials_exception
    | some username =>
      let roleParse : Option (Option UserRole) :=
        match payload.role with
        | none => some none
        | some r =>
          if r = "" then some none
          else match parseRole r with
            | some ur => some (some ur)
            | none => none
      match roleParse with
      | none => .valueError
      | some _ =>
        match s.users.find? (fun u => u.username == username) with
        | none => .httpError credentials_exception
        | some u => .ok u

/-- `require_role(*allowed_roles)` (app.py): the produced checker passes
the authenticated user through when its role is in the allowed set and
raises 403 "Not enough permissions" otherwise. -/
def require_role (allowed_roles : List UserRole) (current_user : User) :
    Except HTTPError User :=
  if current_user.role ∈ allowed_roles then .ok current_user
  else .error ⟨403, "Not enough permissions"⟩

/-- The role set the three admin endpoints are gated on:
`require_role(UserRole.ADMIN, UserRole.ACTIVITY_ADMIN)`. -/
def adminRoles : List UserRole := [UserRole.ADMIN, UserRole.ACTIVITY_ADMIN]

/-- `POST /admin/activities` including its dependency on the role gate:
the body runs only when the gate passes. -/
def create_activity_endpoint (u : User) (s : DBState) (body : ActivityCreate) :
    Except HTTPError Activity × DBState :=
  match require_role adminRoles u with
  | .error e => (.error e, s)
  | .ok _ => create_activity s body

/-- `PUT /admin/activities/{name}` including its dependency on the role gate. -/
def update_activity_endpoint (u : User) (s : DBState) (activity_name : String)
    (body : ActivityUpdate) : Except HTTPError Activity × DBState :=
  match require_role adminRoles u with
  | .error e => (.error e, s)
  | .ok _ => update_activity s activity_name body

/-- `DELETE /admin/activities/{name}` including its dependency on the role
gate. -/
def delete_activity_endpoint (u : User) (s : DBState) (activity_name : String) :
    Except HTTPError String × DBState :=
  match require_role adminRoles u with
  | .error e => (.error e, s)
  | .ok _ => delete_activity s activity_name

/-! ### Store invariants and well-formedness -/

/-- Primary-key uniqueness of the activities table. -/
def DistinctIds (s : DBState) : Prop :=
  (s.activities.map Activity.id).Nodup

/-- The `unique=True` constraint on the activity name column. -/
def DistinctNames (s : DBState) : Prop :=
  (s.activities.map Activity.name).Nodup

/-- The spec's uniqueness invariant on enrollments: the
(activity_id, email) pair is unique across all participant rows. -/
def PairUnique (s : DBState) : Prop :=
  (s.participants.map (fun p => (p.activity_id, p.email))).Nodup

/-- Structural well-formedness the store guarantees: unique primary keys
and names, unique enrollment pairs, auto-increment counters ahead of all
existing ids, and the participant foreign key referencing an existing
activity. -/
def WF (s : DBState) : Prop :=
  DistinctIds s ∧ DistinctNames s ∧ PairUnique s ∧
  (∀ a ∈ s.activities, a.id < s.next_activity_id) ∧
  (∀ p ∈ s.participants, p.id < s.next_participant_id) ∧
  (∀ p ∈ s.participants, ∃ a ∈ s.activities, a.id = p.activity_id)

instance decDistinctIds (s : DBState) : Decidable (DistinctIds s) := by
  unfold DistinctIds
  infer_instance

instance decDistinctNames (s : DBState) : Decidable (DistinctNames s) := by
  unfold DistinctNames
  infer_instance

instance decPairUnique (s : DBState) : Decidable (PairUnique s) := by
  unfold PairUnique
  infer_instance

instance decWF (s : DBState) : Decidable (WF s) := by
  unfold WF
  infer_instance

/-- The spec's capacity invariant: every activity's participant count is
at most its max_participants. -/
def capacityInvariant (s : DBState) : Bool :=
  s.activities.all
    (fun a => decide ((countFor s.participants a.id : Int) ≤ a.max_participants))

/-- Side condition under which an update cannot break the capacity
invariant: when a new max_participants is supplied, it is at least the
current participant count of every activity carrying the targeted name. -/
def updateSafe (s : DBState) (n : String) (u : ActivityUpdate) : Bool :=
  match u.max_participants with
  | none => true
  | some m =>
    s.activities.all
      (fun a => a.name != n || decide ((countFor s.participants a.id : Int) ≤ m))

/-! ### Concrete stores used in witnesses and counterexamples -/

/-- A chess activity at full capacity: 2 enrolled, max 2. -/
def chessClub : Activity :=
  ⟨1, "Chess Club", "Learn chess", "Fridays", 2⟩

/-- A store holding the full chess club and its two participants. -/
def exFull : DBState :=
  { activities := [chessClub],
    participants :=
      [⟨1, "michael@mergington.edu", 1⟩, ⟨2, "daniel@mergington.edu", 1⟩],
    users := [],
    next_activity_id := 2,
    next_participant_id := 3,
    next_user_id := 1 }

/-- The same store with the chess club's capacity raised to 12. -/
def exOpen : DBState :=
  { exFull with activities := [⟨1, "Chess Club", "Learn chess", "Fridays", 12⟩] }

/-- A registered administrator. -/
def exAdmin : User := ⟨1, "alice", "alice@mergington.edu", "h1", .ADMIN⟩

/-- A registered activity administrator. -/
def exActivityAdmin : User := ⟨2, "bob", "bob@mergington.edu", "h2", .ACTIVITY_ADMIN⟩

/-- A registered student. -/
def exStudent : User := ⟨3, "carol", "carol@mergington.edu", "h3", .STUDENT⟩

/-- A store that also holds the three users. -/
def exUsers : DBState :=
  { exOpen with users := [exAdmin, exActivityAdmin, exStudent], next_user_id := 4 }

/-- A concrete stand-in for the keyed HS256 MAC, used only to instantiate
closed witness statements (the real MAC is external). -/
def macModel (key : String) (p : TokenPayload) : String :=
  key ++ "|" ++ toString p.exp ++ "|" ++ p.sub.getD "-" ++ "|" ++ p.role.getD "-"

/-! ### Helper lemmas about lookups and counts -/

theorem findActivity_eq_some {s : DBState} {n : String} {a : Activity}
    (h : findActivity s n = some a) : a ∈ s.activities ∧ a.name = n := by
  refine ⟨List.mem_of_find?_eq_some h, ?_⟩
  have hp := List.find?_some h
  simpa using hp

theorem findActivity_eq_none_iff {s : DBState} {n : String} :
    findActivity s n = none ↔ ∀ a ∈ s.activities, ¬ a.name = n := by
  simp [findActivity, List.find?_eq_none]

theorem findParticipant_eq_some {s : DBState} {aid : Nat} {e : String} {p : Participant}
    (h : findParticipant s aid e = some p) :
    p ∈ s.participants ∧ p.activity_id = aid ∧ p.email = e := by
  refine ⟨List.mem_of_find?_eq_some h, ?_⟩
  have hp := List.find?_some h
  simpa using hp

theorem findParticipant_eq_none_iff {s : DBState} {aid : Nat} {e : String} :
    findParticipant s aid e = none ↔
      ∀ p ∈ s.participants, p.activity_id = aid → ¬ p.email = e := by
  simp [findParticipant, List.find?_eq_none]

theorem distinctIds_inj {s : DBState} (h : DistinctIds s) {a b : Activity}
    (ha : a ∈ s.activities) (hb : b ∈ s.activities) (hid : a.id = b.id) : a = b :=
  List.inj_on_of_nodup_map h ha hb hid

theorem countFor_append (ps qs : List Participant) (aid : Nat) :
    countFor (ps ++ qs) aid = countFor ps aid + countFor qs aid := by
  simp [countFor, List.filter_append]

theorem countFor_singleton (p : Participant) (aid : Nat) :
    countFor [p] aid = if p.activity_id = aid then 1 else 0 := by
  by_cases h : p.activity_id = aid <;> simp [countFor, List.filter_cons, h]

theorem countFor_filter_le (f : Participant → Bool) (ps : List Participant) (aid : Nat) :
    countFor (ps.filter f) aid ≤ countFor ps aid := by
  simp only [countFor]
  exact List.Sublist.length_le (List.Sublist.filter _ (List.filter_sublist ps))

theorem countFor_eq_zero {ps : List Participant} {aid : Nat}
    (h : ∀ p ∈ ps, ¬ p.activity_id = aid) : countFor ps aid = 0 := by
  simp only [countFor, List.length_eq_zero]
  rw [List.filter_eq_nil_iff]
  intro p hp
  simpa using h p hp

theorem capacityInvariant_iff {s : DBState} :
    capacityInvariant s = true ↔
      ∀ a ∈ s.activities, (countFor s.participants a.id : Int) ≤ a.max_participants := by
  simp [capacityInvariant]

theorem applyUpdate_fields (a : Activity) (u : ActivityUpdate) :
    (applyUpdate a u).id = a.id ∧ (applyUpdate a u).name = a.name ∧
    (applyUpdate a u).description = u.description.getD a.description ∧
    (applyUpdate a u).schedule = u.schedule.getD a.schedule ∧
    (applyUpdate a u).max_participants = u.max_participants.getD a.max_participants := by
  obtain ⟨d, sc, m⟩ := u
  cases d <;> cases sc <;> cases m <;> simp [applyUpdate]

/-! ### Capacity-invariant preservation, one operation at a time -/

theorem signup_preserves_capacity {s : DBState} (hids : DistinctIds s)
    (hinv : capacityInvariant s = true) (n e : String) :
    capacityInvariant (signup_for_activity s n e).2 = true := by
  cases hfa : findActivity s n with
  | none => simpa [signup_for_activity, hfa] using hinv
  | some act =>
    cases hfp : findParticipant s act.id e with
    | some p => simpa [signup_for_activity, hfa, hfp] using hinv
    | none =>
      by_cases hfull : (countFor s.participants act.id : Int) ≥ act.max_participants
      · simpa [signup_for_activity, hfa, hfp, hfull] using hinv
      · have hmem := (findActivity_eq_some hfa).1
        have hstate :
            (signup_for_activity s n e).2 =
              { s with
                  participants :=
                    s.participants ++ [⟨s.next_participant_id, e, act.id⟩],
                  next_participant_id := s.next_participant_id + 1 } := by
          simp [signup_for_activity, hfa, hfp, hfull]
        rw [hstate, capacityInvariant_iff]
        intro a ha
        have hbound := capacityInvariant_iff.mp hinv a ha
        have hcount :
            countFor (s.participants ++ [⟨s.next_participant_id, e, act.id⟩]) a.id =
              countFor s.participants a.id +
                (if act.id = a.id then 1 else 0) := by
          rw [countFor_append, countFor_singleton]
        by_cases hid : act.id = a.id
        · have haeq : a = act := distinctIds_inj hids ha hmem hid.symm
          subst haeq
          simp only [hcount, hid, if_pos]
          push_cast
          omega
        · simp only [hcount, hid, if_neg, not_false_iff]
          simpa using hbound

theorem unregister_preserves_capacity {s : DBState}
    (hinv : capacityInvariant s = true) (n e : String) :
    capacityInvariant (unregister_from_activity s n e).2 = true := by
  cases hfa : findActivity s n with
  | none => simpa [unregister_from_activity, hfa] using hinv
  | some act =>
    cases hfp : findParticipant s act.id e with
    | none => simpa [unregister_from_activity, hfa, hfp] using hinv
    | some q =>
      have hstate :
          (unregister_from_activity s n e).2 =
            { s with participants := s.participants.filter (fun p => p.id != q.id) } := by
        simp [unregister_from_activity, hfa, hfp]
      rw [hstate, capacityInvariant_iff]
      intro a ha
      have hbound := capacityInvariant_iff.mp hinv a ha
      have hle := countFor_filter_le (fun p => p.id != q.id) s.participants a.id
      simp only
      omega

theorem delete_preserves_capacity {s : DBState}
    (hinv : capacityInvariant s = true) (n : String) :
    capacityInvariant (delete_activity s n).2 = true := by
  cases hfa : findActivity s n with
  | none => simpa [delete_activity, hfa] using hinv
  | some act =>
    have hstate :
        (delete_activity s n).2 =
          { s with
              activities := s.activities.filter (fun a => a.id != act.id),
              participants := s.participants.filter (fun p => p.activity_id != act.id) } := by
      simp [delete_activity, hfa]
    rw [hstate, capacityInvariant_iff]
    intro a ha
    have ha' : a ∈ s.activities := List.mem_of_mem_filter ha
    have hbound := capacityInvariant_iff.mp hinv a ha'
    have hle := countFor_filter_le (fun p => p.activity_id != act.id) s.participants a.id
    simp only
    omega

theorem create_preserves_capacity {s : DBState}
    (hfresh : ∀ p ∈ s.participants, ∃ a ∈ s.activities, a.id = p.activity_id)
    (hlt : ∀ a ∈ s.activities, a.id < s.next_activity_id)
    (hinv : capacityInvariant s = true) (c : ActivityCreate)
    (hm : 0 ≤ c.max_participants) :
    capacityInvariant (create_activity s c).2 = true := by
  cases hfa : findActivity s c.name with
  | some act => simpa [create_activity, hfa] using hinv
  | none =>
    have hstate :
        (create_activity s c).2 =
          { s with
              activities :=
                s.activities ++
                  [⟨s.next_activity_id, c.name, c.description, c.schedule,
                    c.max_participants⟩],
              next_activity_id := s.next_activity_id + 1 } := by
      simp [create_activity, hfa]
    rw [hstate, capacityInvariant_iff]
    intro a ha
    rcases List.mem_append.mp ha with hold | hnew
    · exact capacityInvariant_iff.mp hinv a hold
    · have haeq :
          a = ⟨s.next_activity_id, c.name, c.description, c.schedule,
                c.max_participants⟩ := by
        simpa using hnew
      subst haeq
      have hzero : countFor s.participants s.next_activity_id = 0 := by
        apply countFor_eq_zero
        intro p hp hcontra
        rcases hfresh p hp with ⟨b, hb, hbid⟩
        have := hlt b hb
        omega
      simp only [hzero]
      simpa using hm

theorem update_preserves_capacity {s : DBState} (hids : DistinctIds s)
    (hinv : capacityInvariant s = true) (n : String) (u : ActivityUpdate)
    (hsafe : updateSafe s n u = true) :
    capacityInvariant (update_activity s n u).2 = true := by
  cases hfa : findActivity s n with
  | none => simpa [update_activity, hfa] using hinv
  | some act =>
    have hmem := (findActivity_eq_some hfa).1
    have hname := (findActivity_eq_some hfa).2
    have hstate :
        (update_activity s n u).2 =
          { s with
              activities :=
                s.activities.map
                  (fun a => if a.id == act.id then applyUpdate act u else a) } := by
      simp [update_activity, hfa]
    rw [hstate, capacityInvariant_iff]
    intro b hb
    rcases List.mem_map.mp hb with ⟨a, ha, hab⟩
    by_cases hid : a.id = act.id
    · have haeq : a = act := distinctIds_inj hids ha hmem hid
      subst haeq
      have hbeq : b = applyUpdate a u := by
        rw [← hab]
        simp
      subst hbeq
      obtain ⟨hbid, _, _, _, hbmax⟩ := applyUpdate_fields a u
      rw [hbid, hbmax]
      cases hmu : u.max_participants with
      | none =>
        simpa using capacityInvariant_iff.mp hinv a ha
      | some m =>
        have hsafe' := hsafe
        unfold updateSafe at hsafe'
        rw [hmu] at hsafe'
        have hall := List.all_eq_true.mp hsafe' a ha
        have hne : (a.name != n) = false := by
          simp [hname]
        rw [hne] at hall
        simpa using hall
    · have hbeq : b = a := by
        rw [← hab]
        simp [hid]
      subst hbeq
      exact capacityInvariant_iff.mp hinv b ha

/-! ### C1 -/

/-- C1 (amended): in a well-formed store satisfying the capacity invariant,
signup, unregister and delete always preserve the invariant; create
preserves it provided the supplied max_participants is nonnegative; update
preserves it provided the supplied max_participants, when present, is at
least the current participant count of the targeted activity. (As stated,
the claim fails: update and create are not guarded, see the
counterexample.) -/
theorem C1_capacity_invariant_preservation (s : DBState) (hwf : WF s)
    (hinv : capacityInvariant s = true) :
    (∀ n e, capacityInvariant (signup_for_activity s n e).2 = true) ∧
    (∀ n e, capacityInvariant (unregister_from_activity s n e).2 = true) ∧
    (∀ n, capacityInvariant (delete_activity s n).2 = true) ∧
    (∀ c, 0 ≤ c.max_participants →
      capacityInvariant (create_activity s c).2 = true) ∧
    (∀ n u, updateSafe s n u = true →
      capacityInvariant (update_activity s n u).2 = true) := by
  obtain ⟨hids, _, _, hlt, _, hfk⟩ := hwf
  exact ⟨fun n e => signup_preserves_capacity hids hinv n e,
         fun n e => unregister_preserves_capacity hinv n e,
         fun n => delete_preserves_capacity hinv n,
         fun c hm => create_preserves_capacity hfk hlt hinv c hm,
         fun n u hs => update_preserves_capacity hids hinv n u hs⟩

/-- Witness for C1: the amended theorem applied to the concrete open store,
for one signup. -/
theorem C1_capacity_invariant_preservation_witness :
    capacityInvariant
      (signup_for_activity exOpen "Chess Club" "x@mergington.edu").2 = true :=
  (C1_capacity_invariant_preservation exOpen (by decide) (by decide)).1
    "Chess Club" "x@mergington.edu"

/-- Counterexample to C1 as stated: the full chess store satisfies the
invariant, yet updating max_participants down to 1 breaks it, and creating
an activity with negative max_participants breaks it as well — so the
invariant is not preserved by every operation. -/
theorem C1_capacity_invariant_counterexample :
    capacityInvariant exFull = true ∧
    capacityInvariant
      (update_activity exFull "Chess Club" ⟨none, none, some 1⟩).2 = false ∧
    capacityInvariant
      (create_activity exFull ⟨"Robotics Club", "Build robots", "Mondays", -1⟩).2
        = false := by
  decide

/-! ### C2 -/

/-- C2: signup applies its checks in order existence → duplicate →
capacity: a missing activity yields 404; otherwise an existing
(activity, email) enrollment yields the duplicate 400 — regardless of
whether the activity is also full; otherwise a count at or above
max_participants yields the full 400; otherwise the signup succeeds. -/
theorem C2_signup_check_order (s : DBState) (n e : String) :
    (findActivity s n = none →
      signup_for_activity s n e = (.error ⟨404, "Activity not found"⟩, s)) ∧
    (∀ a p, findActivity s n = some a → findParticipant s a.id e = some p →
      signup_for_activity s n e =
        (.error ⟨400, "Student is already signed up"⟩, s)) ∧
    (∀ a, findActivity s n = some a → findParticipant s a.id e = none →
      (countFor s.participants a.id : Int) ≥ a.max_participants →
      signup_for_activity s n e = (.error ⟨400, "Activity is full"⟩, s)) ∧
    (∀ a, findActivity s n = some a → findParticipant s a.id e = none →
      (countFor s.participants a.id : Int) < a.max_participants →
      (signup_for_activity s n e).1 = .ok ("Signed up " ++ e ++ " for " ++ n)) := by
  refine ⟨?_, ?_, ?_, ?_⟩
  · intro h
    simp [signup_for_activity, h]
  · intro a p hfa hfp
    simp [signup_for_activity, hfa, hfp]
  · intro a hfa hfp hge
    simp [signup_for_activity, hfa, hfp, hge]
  · intro a hfa hfp hlt
    have hnge : ¬ (countFor s.participants a.id : Int) ≥ a.max_participants := by
      omega
    simp [signup_for_activity, hfa, hfp, hnge]

/-- Witness for C2: on the full chess store, re-signing an enrolled email
is reported as a duplicate, not as full, even though the activity is also
at capacity. -/
theorem C2_signup_check_order_witness :
    signup_for_activity exFull "Chess Club" "michael@mergington.edu" =
      (.error ⟨400, "Student is already signed up"⟩, exFull) ∧
    (countFor exFull.participants chessClub.id : Int) ≥
      chessClub.max_participants :=
  ⟨(C2_signup_check_order exFull "Chess Club" "michael@mergington.edu").2.1
      chessClub ⟨1, "michael@mergington.edu", 1⟩ (by decide) (by decide),
    by decide⟩

/-! ### C3 -/

/-- C3: when the (activity, email) pair is already enrolled, a second
signup of that pair fails with the duplicate 400 and leaves the store
unchanged; moreover signup always preserves uniqueness of the
(activity_id, email) pair across all participant rows. -/
theorem C3_no_duplicate_signup (s : DBState) (n e : String) :
    (∀ a, findActivity s n = some a →
      (∃ p ∈ s.participants, p.activity_id = a.id ∧ p.email = e) →
      signup_for_activity s n e =
        (.error ⟨400, "Student is already signed up"⟩, s)) ∧
    (PairUnique s → PairUnique (signup_for_activity s n e).2) := by
  constructor
  · intro a hfa hex
    have hsome : (findParticipant s a.id e).isSome := by
      rw [findParticipant, List.find?_isSome]
      rcases hex with ⟨p, hp, h1, h2⟩
      exact ⟨p, hp, by simp [h1, h2]⟩
    rcases Option.isSome_iff_exists.mp hsome with ⟨p, hfp⟩
    simp [signup_for_activity, hfa, hfp]
  · intro hpu
    cases hfa : findActivity s n with
    | none => simpa [signup_for_activity, hfa] using hpu
    | some act =>
      cases hfp : findParticipant s act.id e with
      | some p => simpa [signup_for_activity, hfa, hfp] using hpu
      | none =>
        by_cases hfull : (countFor s.participants act.id : Int) ≥ act.max_participants
        · simpa [signup_for_activity, hfa, hfp, hfull] using hpu
        · have hstate :
              (signup_for_activity s n e).2 =
                { s with
                    participants :=
                      s.participants ++ [⟨s.next_participant_id, e, act.id⟩],
                    next_participant_id := s.next_participant_id + 1 } := by
            simp [signup_for_activity, hfa, hfp, hfull]
          rw [hstate]
          unfold PairUnique at hpu ⊢
          simp only [List.map_append, List.map_cons, List.map_nil]
          rw [List.nodup_append]
          refine ⟨hpu, List.nodup_singleton _, ?_⟩
          intro pr hpr hpr'
          simp only [List.mem_singleton] at hpr'
      --  pr is a pair present among the existing rows and equal to the new pair
          rcases List.mem_map.mp hpr with ⟨q, hq, hqpr⟩
          have hqa : q.activity_id = act.id ∧ q.email = e := by
            rw [hpr'] at hqpr
            exact ⟨congrArg Prod.fst hqpr, congrArg Prod.snd hqpr⟩
          exact findParticipant_eq_none_iff.mp hfp q hq hqa.1 hqa.2

/-- Witness for C3: signup preserves pair uniqueness on the concrete full
store. -/
theorem C3_no_duplicate_signup_witness :
    PairUnique (signup_for_activity exFull "Chess Club" "newkid@mergington.edu").2 :=
  (C3_no_duplicate_signup exFull "Chess Club" "newkid@mergington.edu").2 (by decide)

/-! ### C4 -/

/-- C4 (amended): issuing with a nonzero ttl and verifying before the
expiry, untampered, round-trips identity and role; a zero ttl is falsy in
Python, so it produces the same token as an unspecified ttl — a 15-minute
expiry — and is therefore accepted on first verification, not rejected as
expired; verification fails when the signature does not match, when the
sub claim is missing, or when the expiry has passed; login and refresh
pass a 30-minute ttl and the callee default is 15 minutes. -/
theorem C4_token_roundtrip (mac : String → TokenPayload → String)
    (env : Option String) (now v ttl : Int) (sub : String) (r : UserRole)
    (t : JWT) (s : DBState) :
    (¬ ttl = 0 → v ≤ now + ttl →
      jwt_decode mac env v
          (create_access_token mac env now sub r.value (some ttl)) =
        some ⟨some sub, some r.value, now + ttl⟩ ∧
      parseRole r.value = some r) ∧
    (create_access_token mac env now sub r.value (some 0) =
      create_access_token mac env now sub r.value none) ∧
    ((create_access_token mac env now sub r.value none).payload.exp =
      now + 15 * 60) ∧
    (¬ t.sig = mac (SECRET_KEY env) t.payload → jwt_decode mac env v t = none) ∧
    (t.payload.exp < v → jwt_decode mac env v t = none) ∧
    (t.payload.sub = none → t.sig = mac (SECRET_KEY env) t.payload →
      v ≤ t.payload.exp →
      get_current_user mac env v s t = .httpError credentials_exception) ∧
    ACCESS_TOKEN_EXPIRE_MINUTES = 30 := by
  refine ⟨?_, ?_, ?_, ?_, ?_, ?_, rfl⟩
  · intro httl hv
    constructor
    · simp [create_access_token, jwt_decode, httl, hv]
    · cases r <;> simp [parseRole, UserRole.value]
  · simp [create_access_token]
  · simp [create_access_token]
  · intro hsig
    simp [jwt_decode, hsig]
  · intro hexp
    have : ¬ v ≤ t.payload.exp := by omega
    simp [jwt_decode, this]
  · intro hsub hsig hexp
    have hdec : jwt_decode mac env v t = some t.payload := by
      simp [jwt_decode, hsig, hexp]
    simp [get_current_user, hdec, hsub]

/-- Witness for C4: a concrete round-trip through the model MAC. -/
theorem C4_token_roundtrip_witness :
    jwt_decode macModel none 1000
        (create_access_token macModel none 500 "alice" UserRole.ADMIN.value
          (some 600)) =
      some ⟨some "alice", some UserRole.ADMIN.value, 500 + 600⟩ ∧
    parseRole UserRole.ADMIN.value = some UserRole.ADMIN :=
  (C4_token_roundtrip macModel none 500 1000 600 "alice" UserRole.ADMIN
      ⟨⟨none, none, 0⟩, "x"⟩ exFull).1 (by decide) (by decide)

/-- Counterexample to C4 as stated: a token issued with ttl 0 and verified
immediately is accepted, with a 15-minute expiry, instead of being
rejected as expired. -/
theorem C4_token_counterexample :
    jwt_decode macModel none 1000
        (create_access_token macModel none 1000 "alice" "admin" (some 0)) =
      some ⟨some "alice", some "admin", 1000 + 15 * 60⟩ := by
  decide

/-! ### C5 -/

/-- C5: the admin endpoints are gated on the role set
{ADMIN, ACTIVITY_ADMIN}: the gate passes exactly those roles, a STUDENT
receives 403 "Not enough permissions" from create, update and delete with
the store untouched, and an allowed role runs the underlying operation. -/
theorem C5_role_gating (u : User) (s : DBState) (c : ActivityCreate)
    (n : String) (upd : ActivityUpdate) :
    (require_role adminRoles u = .ok u ↔
      (u.role = .ADMIN ∨ u.role = .ACTIVITY_ADMIN)) ∧
    (u.role = .STUDENT →
      create_activity_endpoint u s c =
        (.error ⟨403, "Not enough permissions"⟩, s) ∧
      update_activity_endpoint u s n upd =
        (.error ⟨403, "Not enough permissions"⟩, s) ∧
      delete_activity_endpoint u s n =
        (.error ⟨403, "Not enough permissions"⟩, s)) ∧
    (u.role = .ADMIN ∨ u.role = .ACTIVITY_ADMIN →
      create_activity_endpoint u s c = create_activity s c ∧
      update_activity_endpoint u s n upd = update_activity s n upd ∧
      delete_activity_endpoint u s n = delete_activity s n) := by
  refine ⟨?_, ?_, ?_⟩
  · cases hr : u.role <;>
      simp [require_role, adminRoles, hr]
  · intro hr
    simp [create_activity_endpoint, update_activity_endpoint,
      delete_activity_endpoint, require_role, adminRoles, hr]
  · intro hr
    have hgate : require_role adminRoles u = .ok u := by
      rcases hr with hr | hr <;> simp [require_role, adminRoles, hr]
    simp [create_activity_endpoint, update_activity_endpoint,
      delete_activity_endpoint, hgate]

/-- Witness for C5: the student is refused and the admin's create runs. -/
theorem C5_role_gating_witness :
    delete_activity_endpoint exStudent exOpen "Chess Club" =
      (.error ⟨403, "Not enough permissions"⟩, exOpen) ∧
    create_activity_endpoint exAdmin exOpen ⟨"Art Club", "Paint", "Thu", 15⟩ =
      create_activity exOpen ⟨"Art Club", "Paint", "Thu", 15⟩ :=
  ⟨((C5_role_gating exStudent exOpen ⟨"Art Club", "Paint", "Thu", 15⟩
      "Chess Club" ⟨none, none, none⟩).2.1 (by decide)).2.2,
   ((C5_role_gating exAdmin exOpen ⟨"Art Club", "Paint", "Thu", 15⟩
      "Chess Club" ⟨none, none, none⟩).2.2 (Or.inl (by decide))).1⟩

/-! ### C6 -/

/-- C6: update returns 404 and leaves the store unchanged when the name is
absent; otherwise it returns the record with exactly the provided fields
overwritten, keeps the activity's name and id, leaves the participant and
user tables untouched, keeps every activity with a different id unchanged,
and introduces no activity beyond the updated one. -/
theorem C6_update_frame (s : DBState) (n : String) (u : ActivityUpdate) :
    (findActivity s n = none →
      update_activity s n u = (.error ⟨404, "Activity not found"⟩, s)) ∧
    (∀ a, findActivity s n = some a →
      (update_activity s n u).1 = .ok (applyUpdate a u) ∧
      (applyUpdate a u).id = a.id ∧
      (applyUpdate a u).name = a.name ∧
      (applyUpdate a u).description = u.description.getD a.description ∧
      (applyUpdate a u).schedule = u.schedule.getD a.schedule ∧
      (applyUpdate a u).max_participants =
        u.max_participants.getD a.max_participants ∧
      (update_activity s n u).2.participants = s.participants ∧
      (update_activity s n u).2.users = s.users ∧
      applyUpdate a u ∈ (update_activity s n u).2.activities ∧
      (∀ b ∈ s.activities, ¬ b.id = a.id →
        b ∈ (update_activity s n u).2.activities) ∧
      (∀ b ∈ (update_activity s n u).2.activities,
        b = applyUpdate a u ∨ b ∈ s.activities)) := by
  constructor
  · intro h
    simp [update_activity, h]
  · intro a hfa
    have hmem := (findActivity_eq_some hfa).1
    obtain ⟨hid, hname, hdesc, hsch, hmax⟩ := applyUpdate_fields a u
    refine ⟨by simp [update_activity, hfa], hid, hname, hdesc, hsch, hmax,
      by simp [update_activity, hfa], by simp [update_activity, hfa],
      ?_, ?_, ?_⟩
    · have : (update_activity s n u).2.activities =
          s.activities.map (fun b => if b.id == a.id then applyUpdate a u else b) := by
        simp [update_activity, hfa]
      rw [this]
      refine List.mem_map.mpr ⟨a, hmem, ?_⟩
      simp
    · intro b hb hbid
      have : (update_activity s n u).2.activities =
          s.activities.map (fun b => if b.id == a.id then applyUpdate a u else b) := by
        simp [update_activity, hfa]
      rw [this]
      refine List.mem_map.mpr ⟨b, hb, ?_⟩
      simp [hbid]
    · intro b hb
      have heq : (update_activity s n u).2.activities =
          s.activities.map (fun b => if b.id == a.id then applyUpdate a u else b) := by
        simp [update_activity, hfa]
      rw [heq] at hb
      rcases List.mem_map.mp hb with ⟨b0, hb0, hbeq⟩
      by_cases h0 : b0.id = a.id
      · left
        rw [← hbeq]
        simp [h0]
      · right
        rw [← hbeq]
        simpa [h0] using hb0

/-- Witness for C6: updating only the schedule of the chess club changes
that field alone and leaves the enrollment table untouched. -/
theorem C6_update_frame_witness :
    (update_activity exOpen "Chess Club" ⟨none, some "Mondays", none⟩).1 =
      .ok ⟨1, "Chess Club", "Learn chess", "Mondays", 12⟩ ∧
    (update_activity exOpen "Chess Club" ⟨none, some "Mondays", none⟩).2.participants =
      exOpen.participants := by
  have h := (C6_update_frame exOpen "Chess Club" ⟨none, some "Mondays", none⟩).2
    ⟨1, "Chess Club", "Learn chess", "Fridays", 12⟩ (by decide)
  exact ⟨by simpa using h.1, h.2.2.2.2.2.2.1⟩

/-! ### C7 -/

/-- C7: delete returns 404 when the name is absent; otherwise it removes
the activity, cascades removal of every participant of that activity,
leaves other activities and their participants in place, and frees the
name so a subsequent create with it succeeds. -/
theorem C7_delete_cascade (s : DBState) (n : String) :
    (findActivity s n = none →
      delete_activity s n = (.error ⟨404, "Activity not found"⟩, s)) ∧
    (∀ a, findActivity s n = some a → DistinctNames s →
      (delete_activity s n).1 =
        .ok ("Activity '" ++ n ++ "' deleted successfully") ∧
      findActivity (delete_activity s n).2 n = none ∧
      (∀ p ∈ (delete_activity s n).2.participants, ¬ p.activity_id = a.id) ∧
      (∀ p ∈ s.participants, ¬ p.activity_id = a.id →
        p ∈ (delete_activity s n).2.participants) ∧
      (∀ b ∈ s.activities, ¬ b.id = a.id →
        b ∈ (delete_activity s n).2.activities) ∧
      (∀ c : ActivityCreate, c.name = n →
        ∃ r, (create_activity (delete_activity s n).2 c).1 = .ok r)) := by
  constructor
  · intro h
    simp [delete_activity, h]
  · intro a hfa hnames
    have hmem := (findActivity_eq_some hfa).1
    have hname := (findActivity_eq_some hfa).2
    have hacts : (delete_activity s n).2.activities =
        s.activities.filter (fun b => b.id != a.id) := by
      simp [delete_activity, hfa]
    have hparts : (delete_activity s n).2.participants =
        s.participants.filter (fun p => p.activity_id != a.id) := by
      simp [delete_activity, hfa]
    have hgone : findActivity (delete_activity s n).2 n = none := by
      rw [findActivity_eq_none_iff]
      intro b hb hbn
      rw [hacts] at hb
      have hb' : b ∈ s.activities := (List.mem_filter.mp hb).1
      have hbid := (List.mem_filter.mp hb).2
      have : b = a :=
        List.inj_on_of_nodup_map hnames hb' hmem (by rw [hbn, hname])
      subst this
      simp at hbid
    refine ⟨by simp [delete_activity, hfa], hgone, ?_, ?_, ?_, ?_⟩
    · intro p hp
      rw [hparts] at hp
      have := List.of_mem_filter hp
      simpa using this
    · intro p hp hpa
      rw [hparts]
      exact List.mem_filter.mpr ⟨hp, by simpa using hpa⟩
    · intro b hb hbid
      rw [hacts]
      exact List.mem_filter.mpr ⟨hb, by simpa using hbid⟩
    · intro c hc
      refine ⟨⟨(delete_activity s n).2.next_activity_id, c.name, c.description,
        c.schedule, c.max_participants⟩, ?_⟩
      rw [create_activity, hc, hgone]

/-- Witness for C7: deleting the chess club empties its enrollment and
frees the name for a new activity. -/
theorem C7_delete_cascade_witness :
    findActivity (delete_activity exFull "Chess Club").2 "Chess Club" = none ∧
    (∀ p ∈ (delete_activity exFull "Chess Club").2.participants,
      ¬ p.activity_id = chessClub.id) := by
  have h := (C7_delete_cascade exFull "Chess Club").2 chessClub (by decide) (by decide)
  exact ⟨h.2.1, h.2.2.1⟩

/-! ### C8 -/

/-- C8: every write operation that fails with an error leaves the store
exactly as it was — each handler raises before any row is added, mutated
or deleted, so no partial write is observable. -/
theorem C8_atomic_on_failure (hash_fn : String → String) (s : DBState)
    (n e : String) (c : ActivityCreate) (u : ActivityUpdate)
    (d : UserRegister) (er : HTTPError) :
    ((signup_for_activity s n e).1 = .error er →
      (signup_for_activity s n e).2 = s) ∧
    ((unregister_from_activity s n e).1 = .error er →
      (unregister_from_activity s n e).2 = s) ∧
    ((create_activity s c).1 = .error er → (create_activity s c).2 = s) ∧
    ((update_activity s n u).1 = .error er → (update_activity s n u).2 = s) ∧
    ((delete_activity s n).1 = .error er → (delete_activity s n).2 = s) ∧
    ((register hash_fn s d).1 = .error er → (register hash_fn s d).2 = s) := by
  refine ⟨?_, ?_, ?_, ?_, ?_, ?_⟩
  · intro h
    cases hfa : findActivity s n with
    | none => simp [signup_for_activity, hfa]
    | some act =>
      cases hfp : findParticipant s act.id e with
      | some p => simp [signup_for_activity, hfa, hfp]
      | none =>
        by_cases hfull :
            (countFor s.participants act.id : Int) ≥ act.max_participants
        · simp [signup_for_activity, hfa, hfp, hfull]
        · simp [signup_for_activity, hfa, hfp, hfull] at h
  · intro h
    cases hfa : findActivity s n with
    | none => simp [unregister_from_activity, hfa]
    | some act =>
      cases hfp : findParticipant s act.id e with
      | none => simp [unregister_from_activity, hfa, hfp]
      | some p => simp [unregister_from_activity, hfa, hfp] at h
  · intro h
    cases hfa : findActivity s c.name with
    | some act => simp [create_activity, hfa]
    | none => simp [create_activity, hfa] at h
  · intro h
    cases hfa : findActivity s n with
    | none => simp [update_activity, hfa]
    | some act => simp [update_activity, hfa] at h
  · intro h
    cases hfa : findActivity s n with
    | none => simp [delete_activity, hfa]
    | some act => simp [delete_activity, hfa] at h
  · intro h
    by_cases h1 : (s.users.find? (fun w => w.username == d.username)).isSome
    · simp [register, h1]
    · by_cases h2 : (s.users.find? (fun w => w.email == d.email)).isSome
      · simp [register, h1, h2]
      · simp [register, h1, h2] at h

/-- Witness for C8: the duplicate signup on the full chess store leaves
the store unchanged. -/
theorem C8_atomic_on_failure_witness :
    (signup_for_activity exFull "Chess Club" "michael@mergington.edu").2 =
      exFull :=
  (C8_atomic_on_failure (fun p => p) exFull "Chess Club"
      "michael@mergington.edu" ⟨"A", "d", "s", 1⟩ ⟨none, none, none⟩
      ⟨"u", "m", "pw", .STUDENT⟩
      ⟨400, "Student is already signed up"⟩).1 rfl

/-! ### C9 -/

/-- C9 (amended): the signing key is read from the SECRET_KEY environment
variable when it is set, but when it is absent the shipped default string
"your-secret-key-change-in-production" is used silently as the signing
key. -/
theorem C9_secret_key_source (env : Option String) :
    (∀ k, env = some k → SECRET_KEY env = k) ∧
    (env = none →
      SECRET_KEY env = "your-secret-key-change-in-production") := by
  constructor
  · intro k hk
    simp [SECRET_KEY, hk]
  · intro hk
    simp [SECRET_KEY, SECRET_KEY_default, hk]

/-- Witness for C9: both branches of the amended statement at concrete
environments. -/
theorem C9_secret_key_source_witness :
    SECRET_KEY (some "prod-key") = "prod-key" ∧
    SECRET_KEY none = "your-secret-key-change-in-production" :=
  ⟨(C9_secret_key_source (some "prod-key")).1 "prod-key" rfl,
   (C9_secret_key_source none).2 rfl⟩

/-- Counterexample to C9 as stated: with no external configuration the
system signs with the shipped default key — a token issued under the
absent configuration verifies against the built-in constant. -/
theorem C9_secret_key_counterexample :
    SECRET_KEY none = SECRET_KEY_default ∧
    jwt_decode (fun k p => macModel k p) none 0
        (create_access_token (fun k p => macModel k p) none 0 "alice" "admin"
          (some 60)) =
      some ⟨some "alice", some "admin", 60⟩ := by
  decide

/-! ### C10 -/

/-- C10: signup and unregister take no authenticated user at all — their
embeddings have no token or user argument because the handlers declare no
authentication dependency — and every error they can return is one of the
enumerated 404/400 outcomes; in particular no outcome carries status 401
or 403. -/
theorem C10_public_enrollment (s : DBState) (n e : String) (er : HTTPError) :
    ((signup_for_activity s n e).1 = .error er →
      (er = ⟨404, "Activity not found"⟩ ∨
        er = ⟨400, "Student is already signed up"⟩ ∨
        er = ⟨400, "Activity is full"⟩) ∧
      ¬ er.status = 401 ∧ ¬ er.status = 403) ∧
    ((unregister_from_activity s n e).1 = .error er →
      (er = ⟨404, "Activity not found"⟩ ∨
        er = ⟨400, "Student is not signed up for this activity"⟩) ∧
      ¬ er.status = 401 ∧ ¬ er.status = 403) := by
  constructor
  · intro h
    have her : er = ⟨404, "Activity not found"⟩ ∨
        er = ⟨400, "Student is already signed up"⟩ ∨
        er = ⟨400, "Activity is full"⟩ := by
      cases hfa : findActivity s n with
      | none =>
        simp [signup_for_activity, hfa] at h
        exact Or.inl h.symm
      | some act =>
        cases hfp : findParticipant s act.id e with
        | some p =>
          simp [signup_for_activity, hfa, hfp] at h
          exact Or.inr (Or.inl h.symm)
        | none =>
          by_cases hfull :
              (countFor s.participants act.id : Int) ≥ act.max_participants
          · simp [signup_for_activity, hfa, hfp, hfull] at h
            exact Or.inr (Or.inr h.symm)
          · simp [signup_for_activity, hfa, hfp, hfull] at h
    refine ⟨her, ?_, ?_⟩ <;>
      rcases her with h4 | h4 | h4 <;> subst h4 <;> simp
  · intro h
    have her : er = ⟨404, "Activity not found"⟩ ∨
        er = ⟨400, "Student is not signed up for this activity"⟩ := by
      cases hfa : findActivity s n with
      | none =>
        simp [unregister_from_activity, hfa] at h
        exact Or.inl h.symm
      | some act =>
        cases hfp : findParticipant s act.id e with
        | none =>
          simp [unregister_from_activity, hfa, hfp] at h
          exact Or.inr h.symm
        | some p =>
          simp [unregister_from_activity, hfa, hfp] at h
    refine ⟨her, ?_, ?_⟩ <;>
      rcases her with h4 | h4 <;> subst h4 <;> simp

/-- Witness for C10: the duplicate-signup error on the concrete store has
one of the enumerated statuses and is neither 401 nor 403. -/
theorem C10_public_enrollment_witness :
    ((⟨400, "Student is already signed up"⟩ : HTTPError) =
        ⟨404, "Activity not found"⟩ ∨
      (⟨400, "Student is already signed up"⟩ : HTTPError) =
        ⟨400, "Student is already signed up"⟩ ∨
      (⟨400, "Student is already signed up"⟩ : HTTPError) =
        ⟨400, "Activity is full"⟩) ∧
    ¬ (⟨400, "Student is already signed up"⟩ : HTTPError).status = 401 ∧
    ¬ (⟨400, "Student is already signed up"⟩ : HTTPError).status = 403 :=
  (C10_public_enrollment exFull "Chess Club" "michael@mergington.edu"
      ⟨400, "Student is already signed up"⟩).1 rfl

end School
